import Mathlib

/-!
Shallow embedding of `src/mcp_server_selenium/server.py` (the only source file
of the mcp-selenium repository): a `SeleniumServer` session registry plus a
line-oriented JSON-RPC-style dispatcher `handle_stdio`.

Modelling conventions:
* Python JSON values are the inductive `Json`; a parsed stdin line is a
  `LineIn` (`bad msg` when `json.loads` raises, carrying the exception text).
* The selenium engine is an external collaborator.  The outcome of each outcall
  (driver construction, element lookup, click, ...) is an explicit
  `Except String _` parameter (`String` = Python `str(e)` of the raised
  exception), and every outcall actually performed is recorded in a
  `List EngineCall` trace, so "performs no engine call" is `calls = []`.
* Python `str(x)` / `repr(x)` of JSON values are `Json.pyStr` / `Json.pyRepr`;
  exception texts (`KeyError`, `AttributeError`, `TypeError`,
  `UnboundLocalError`) are reproduced by the `keyErrStr` / `attrGetErr` /
  `subscriptErr` / `unboundRequestMsg` helpers.
-/

namespace MCPSelenium

/-- JSON values as manipulated by the server (Python dict/list/str/int/bool/None).
Objects keep insertion order, mirroring Python dicts after `json.loads`
(duplicate keys never occur in a parsed dict, and none are used below). -/
inductive Json where
  | null
  | bool (b : Bool)
  | num (n : Int)
  | str (s : String)
  | arr (xs : List Json)
  | obj (fields : List (String × Json))

/-- Single-quote character, used to spell Python `repr` / exception texts. -/
def pyQ : String := String.mk [Char.ofNat 39]

mutual
/-- Python `repr` of a JSON value (as used by `str(KeyError(k))` and for
containers inside f-string interpolation). -/
def Json.pyRepr : Json → String
  | .null => "None"
  | .bool true => "True"
  | .bool false => "False"
  | .num n => toString n
  | .str s => pyQ ++ s ++ pyQ
  | .arr xs => "[" ++ Json.pyReprSeq xs ++ "]"
  | .obj fs => "\x7b" ++ Json.pyReprFieldSeq fs ++ "\x7d"

/-- Comma-separated item representations of a Python list. -/
def Json.pyReprSeq : List Json → String
  | [] => ""
  | [x] => Json.pyRepr x
  | x :: y :: t => Json.pyRepr x ++ ", " ++ Json.pyReprSeq (y :: t)

/-- Comma-separated key-value representations of a Python dict. -/
def Json.pyReprFieldSeq : List (String × Json) → String
  | [] => ""
  | [(k, v)] => pyQ ++ k ++ pyQ ++ ": " ++ Json.pyRepr v
  | (k, v) :: y :: t =>
      pyQ ++ k ++ pyQ ++ ": " ++ Json.pyRepr v ++ ", " ++ Json.pyReprFieldSeq (y :: t)
end

/-- Python `str` of a JSON value, as produced by f-string interpolation. -/
def Json.pyStr : Json → String
  | .str s => s
  | j => Json.pyRepr j

/-- Python `type(x).__name__` for a JSON value. -/
def Json.typeName : Json → String
  | .null => "NoneType"
  | .bool _ => "bool"
  | .num _ => "int"
  | .str _ => "str"
  | .arr _ => "list"
  | .obj _ => "dict"

/-- Python truthiness of a JSON value (`if x:`, `x or y`, `x and y`). -/
def truthy : Json → Bool
  | .null => false
  | .bool b => b
  | .num n => n != 0
  | .str s => s != ""
  | .arr xs => !xs.isEmpty
  | .obj fs => !fs.isEmpty

/-- Python `x == "t"` for a JSON value `x` and a string literal `t`
(comparison of a non-string against a string is `False`). -/
def Json.eqStr : Json → String → Bool
  | .str s, t => s == t
  | _, _ => false

/-- Python `str(e)` of the `AttributeError` raised by `x.get(...)` when `x`
is not a dict. -/
def attrGetErr (j : Json) : String :=
  pyQ ++ j.typeName ++ pyQ ++ " object has no attribute " ++ pyQ ++ "get" ++ pyQ

/-- Python `str(e)` of the `TypeError` raised by `x[...]` when `x` is not
subscriptable. -/
def subscriptErr (j : Json) : String :=
  pyQ ++ j.typeName ++ pyQ ++ " object is not subscriptable"

/-- Python `str(e)` of a `KeyError` for a string key (this is `repr(key)`). -/
def keyErrStr (k : String) : String := pyQ ++ k ++ pyQ

/-- Python `str(e)` of the `UnboundLocalError` raised when the `except` block
of `handle_stdio` reads `request` before any line has been parsed. -/
def unboundRequestMsg : String :=
  "cannot access local variable " ++ pyQ ++ "request" ++ pyQ ++
    " where it is not associated with a value"

/-- Selenium WebElement attributes visible through the selenium element API
(`tag_name`, `text`, `is_displayed()`, `is_enabled()`, `location`, `size`).
`find_element` in the source reads only `tag_name` and `text`. -/
structure Elem where
  tagName : String
  text : String
  isDisplayed : Bool
  isEnabled : Bool
  locX : Int
  locY : Int
  width : Int
  height : Int
deriving DecidableEq

/-- Calls into the selenium engine (the opaque collaborator), recorded as a
trace so that "performs no engine call" is expressible. -/
inductive EngineCall where
  | launch (browser : Json) (options : Json)
  | findElem (sessionId : String) (strategy : String) (locValue : Json) (timeout : Json)
  | navigateTo (sessionId : String) (url : Json)
  | clickElem (e : Elem)
  | clearElem (e : Elem)
  | sendKeysTo (e : Elem) (payload : Json)
  | moveToElem (sessionId : String) (e : Elem)
  | dragDropElems (sessionId : String) (src : Elem) (tgt : Elem)
  | doubleClickElem (sessionId : String) (e : Elem)
  | contextClickElem (sessionId : String) (e : Elem)
  | chainSendKeys (sessionId : String) (payload : String)
  | screenshot (sessionId : String)
  | quitDriver (sessionId : String)

/-- One entry of the `content` array of a tool result (`{"type": "text", ...}`
or `{"type": "image", ...}`). -/
inductive ContentItem where
  | text (s : String)
  | image (data : String) (mimeType : String)
deriving DecidableEq

/-- Result dict returned by every `SeleniumServer` method:
`{"content": [...], "isError": bool}`, with `start_browser` additionally
inserting a `"session_id"` key between the two. -/
structure ToolResult where
  content : List ContentItem
  isError : Bool
  sessionId : Option String
deriving DecidableEq

/-- Error result `{"content": [{"type": "text", "text": s}], "isError": True}`. -/
def errText (s : String) : ToolResult := ⟨[ContentItem.text s], true, none⟩

/-- Success result `{"content": [{"type": "text", "text": s}], "isError": False}`. -/
def okText (s : String) : ToolResult := ⟨[ContentItem.text s], false, none⟩

/-- State of a `SeleniumServer` instance: `self.drivers` (dict from session id
to a driver handle, modelled by the Python `id` of the handle) and
`self.current_session`. -/
structure ServerState where
  drivers : List (String × Nat)
  currentSession : Option String
deriving DecidableEq

/-- State built by `SeleniumServer.__init__`: empty registry, no current session. -/
def initState : ServerState := ⟨[], none⟩

/-- Python dict assignment `self.drivers[k] = v` (replaces an existing key,
appends a fresh one). -/
def insertDriver : List (String × Nat) → String → Nat → List (String × Nat)
  | [], k, v => [(k, v)]
  | (a, b) :: t, k, v => if a = k then (k, v) :: t else (a, b) :: insertDriver t k v

/-- Python dict lookup `self.drivers[k]` as an `Option` (callers turn `none`
into the `KeyError` text). -/
def lookupD : List (String × Nat) → String → Option Nat
  | [], _ => none
  | (a, b) :: t, k => if a = k then some b else lookupD t k

/-- Guard `if not self.current_session:` — the session id when
`self.current_session` is truthy (a nonempty string), else `none`. -/
def activeSession (st : ServerState) : Option String :=
  match st.currentSession with
  | none => none
  | some s => if s = "" then none else some s

/-- Unguarded `self.drivers[self.current_session]` (used by the ActionChains
branch of `press_key` and after element resolution): the session id on success,
otherwise the `KeyError` text (`drivers[None]` gives `KeyError(None)`,
whose `str` is `None`). -/
def chainLookup (st : ServerState) : Except String String :=
  match st.currentSession with
  | none => Except.error "None"
  | some sid =>
    match lookupD st.drivers sid with
    | none => Except.error (keyErrStr sid)
    | some _ => Except.ok sid

/-- The `by_map` dict of `SeleniumServer._get_element`, mapping the protocol
locator strategy to the selenium `By` constant (`by_map.get(by)`; a non-string
key is simply absent). -/
def by_map_get (b : Json) : Option String :=
  match b with
  | Json.str s =>
    if s = "id" then some "id"
    else if s = "css" then some "css selector"
    else if s = "xpath" then some "xpath"
    else if s = "name" then some "name"
    else if s = "tag" then some "tag name"
    else if s = "class" then some "class name"
    else none
  | _ => none

/-- Value of `selenium.webdriver.common.keys.Keys.ENTER`. -/
def keysENTER : String := String.mk [Char.ofNat 0xE007]

/-- Value of `Keys.TAB`. -/
def keysTAB : String := String.mk [Char.ofNat 0xE004]

/-- Value of `Keys.ESCAPE`. -/
def keysESCAPE : String := String.mk [Char.ofNat 0xE00C]

/-- Value of `Keys.BACK_SPACE`. -/
def keysBACK_SPACE : String := String.mk [Char.ofNat 0xE003]

/-- Value of `Keys.DELETE`. -/
def keysDELETE : String := String.mk [Char.ofNat 0xE017]

/-- Value of `Keys.ARROW_DOWN`. -/
def keysARROW_DOWN : String := String.mk [Char.ofNat 0xE015]

/-- Value of `Keys.ARROW_UP`. -/
def keysARROW_UP : String := String.mk [Char.ofNat 0xE013]

/-- Value of `Keys.ARROW_LEFT`. -/
def keysARROW_LEFT : String := String.mk [Char.ofNat 0xE012]

/-- Value of `Keys.ARROW_RIGHT`. -/
def keysARROW_RIGHT : String := String.mk [Char.ofNat 0xE014]

/-- The fixed `key_map` dict of `SeleniumServer.press_key` (nine entries), as
the lookup `key_map.get(key)`; membership `key in key_map` is `isSome`. -/
def key_map (k : Json) : Option String :=
  match k with
  | Json.str s =>
    if s = "ENTER" then some keysENTER
    else if s = "TAB" then some keysTAB
    else if s = "ESCAPE" then some keysESCAPE
    else if s = "BACKSPACE" then some keysBACK_SPACE
    else if s = "DELETE" then some keysDELETE
    else if s = "ARROW_DOWN" then some keysARROW_DOWN
    else if s = "ARROW_UP" then some keysARROW_UP
    else if s = "ARROW_LEFT" then some keysARROW_LEFT
    else if s = "ARROW_RIGHT" then some keysARROW_RIGHT
    else none
  | _ => none

/-- The nine symbolic key names accepted by `press_key`. -/
def supportedKeys : List String :=
  ["ENTER", "TAB", "ESCAPE", "BACKSPACE", "DELETE",
   "ARROW_DOWN", "ARROW_UP", "ARROW_LEFT", "ARROW_RIGHT"]

/-- Result of one `SeleniumServer` method call: the (possibly updated) server
state, the returned result dict, and the engine calls performed. -/
structure Outcome where
  state : ServerState
  result : ToolResult
  calls : List EngineCall

/-- `SeleniumServer._get_element` (server.py:434-451): raise on a falsy
current session, look the driver up, translate the locator strategy through
`by_map`, then wait for the element.  `find` is the engine outcome of
`WebDriverWait(...).until(presence_of_element_located(...))`. -/
def get_element (st : ServerState) (b v timeout : Json) (find : Except String Elem) :
    Except String Elem × List EngineCall :=
  match activeSession st with
  | none => (Except.error "No active browser session", [])
  | some sid =>
    match lookupD st.drivers sid with
    | none => (Except.error (keyErrStr sid), [])
    | some _ =>
      match by_map_get b with
      | none => (Except.error ("Invalid locator strategy: " ++ b.pyStr), [])
      | some strat =>
        match find with
        | Except.ok e => (Except.ok e, [EngineCall.findElem sid strat v timeout])
        | Except.error msg => (Except.error msg, [EngineCall.findElem sid strat v timeout])

/-- `SeleniumServer.start_browser` (server.py:33-91).  `attempt` is the
outcome of the whole supported-kind try-block prefix (option-object
construction plus `webdriver.Chrome`/`webdriver.Firefox`), yielding the new
Python `id` of the new driver or the text of the raised exception; the unsupported-kind
branch returns its error before any of that runs. -/
def start_browser (st : ServerState) (browser options : Json) (attempt : Except String Nat) :
    Outcome :=
  let opts := if truthy options then options else Json.obj []
  if browser.eqStr "chrome" || browser.eqStr "firefox" then
    match attempt with
    | Except.error e =>
        ⟨st, errText ("Error starting browser: " ++ e), [EngineCall.launch browser opts]⟩
    | Except.ok h =>
        let sid := browser.pyStr ++ "_" ++ toString h
        ⟨⟨insertDriver st.drivers sid h, some sid⟩,
         ⟨[ContentItem.text ("Browser started with session_id: " ++ sid)], false, some sid⟩,
         [EngineCall.launch browser opts]⟩
  else
    ⟨st, errText ("Unsupported browser: " ++ browser.pyStr), []⟩

/-- `SeleniumServer.navigate` (server.py:93-122). -/
def navigate (st : ServerState) (url : Json) (nav : Except String Unit) : Outcome :=
  match activeSession st with
  | none => ⟨st, errText "No active browser session", []⟩
  | some sid =>
    match lookupD st.drivers sid with
    | none => ⟨st, errText ("Error navigating: " ++ keyErrStr sid), []⟩
    | some _ =>
      match nav with
      | Except.ok _ =>
          ⟨st, okText ("Navigated to: " ++ url.pyStr), [EngineCall.navigateTo sid url]⟩
      | Except.error msg =>
          ⟨st, errText ("Error navigating: " ++ msg), [EngineCall.navigateTo sid url]⟩

/-- `SeleniumServer.find_element` (server.py:124-150): resolve the locator and
report only `tag_name` and `text` of the found element. -/
def find_element (st : ServerState) (b v timeout : Json) (find : Except String Elem) :
    Outcome :=
  match get_element st b v timeout find with
  | (Except.error msg, cs) => ⟨st, errText ("Error finding element: " ++ msg), cs⟩
  | (Except.ok e, cs) =>
      ⟨st,
       ⟨[ContentItem.text "Element found.",
         ContentItem.text ("tag_name: " ++ e.tagName ++ ", text: " ++ e.text)],
        false, none⟩,
       cs⟩

/-- `SeleniumServer.click_element` (server.py:152-175). -/
def click_element (st : ServerState) (b v timeout : Json) (find : Except String Elem)
    (click : Except String Unit) : Outcome :=
  match get_element st b v timeout find with
  | (Except.error msg, cs) => ⟨st, errText ("Error clicking element: " ++ msg), cs⟩
  | (Except.ok e, cs) =>
    match click with
    | Except.ok _ =>
        ⟨st, okText ("Clicked element located by " ++ b.pyStr ++ "=" ++ v.pyStr),
         cs ++ [EngineCall.clickElem e]⟩
    | Except.error msg =>
        ⟨st, errText ("Error clicking element: " ++ msg), cs ++ [EngineCall.clickElem e]⟩

/-- `SeleniumServer.type_text` (server.py:177-199): resolve, optionally
`clear()`, then `send_keys(text)`. -/
def type_text (st : ServerState) (b v textv clear_first timeout : Json)
    (find : Except String Elem) (clearR sendR : Except String Unit) : Outcome :=
  match get_element st b v timeout find with
  | (Except.error msg, cs) => ⟨st, errText ("Error typing text: " ++ msg), cs⟩
  | (Except.ok e, cs) =>
    if truthy clear_first then
      match clearR with
      | Except.error msg =>
          ⟨st, errText ("Error typing text: " ++ msg), cs ++ [EngineCall.clearElem e]⟩
      | Except.ok _ =>
        match sendR with
        | Except.ok _ =>
            ⟨st, okText ("Typed text into element located by " ++ b.pyStr ++ "=" ++ v.pyStr),
             cs ++ [EngineCall.clearElem e, EngineCall.sendKeysTo e textv]⟩
        | Except.error msg =>
            ⟨st, errText ("Error typing text: " ++ msg),
             cs ++ [EngineCall.clearElem e, EngineCall.sendKeysTo e textv]⟩
    else
      match sendR with
      | Except.ok _ =>
          ⟨st, okText ("Typed text into element located by " ++ b.pyStr ++ "=" ++ v.pyStr),
           cs ++ [EngineCall.sendKeysTo e textv]⟩
      | Except.error msg =>
          ⟨st, errText ("Error typing text: " ++ msg), cs ++ [EngineCall.sendKeysTo e textv]⟩

/-- `SeleniumServer.hover` (server.py:201-224): resolve, then
`ActionChains(self.drivers[self.current_session]).move_to_element(...)`. -/
def hover (st : ServerState) (b v timeout : Json) (find : Except String Elem)
    (act : Except String Unit) : Outcome :=
  match get_element st b v timeout find with
  | (Except.error msg, cs) => ⟨st, errText ("Error hovering over element: " ++ msg), cs⟩
  | (Except.ok e, cs) =>
    match chainLookup st with
    | Except.error msg => ⟨st, errText ("Error hovering over element: " ++ msg), cs⟩
    | Except.ok sid =>
      match act with
      | Except.ok _ =>
          ⟨st, okText ("Hovered over element located by " ++ b.pyStr ++ "=" ++ v.pyStr),
           cs ++ [EngineCall.moveToElem sid e]⟩
      | Except.error msg =>
          ⟨st, errText ("Error hovering over element: " ++ msg),
           cs ++ [EngineCall.moveToElem sid e]⟩

/-- `SeleniumServer.drag_and_drop` (server.py:226-255): resolve source and
target, then perform the drag gesture. -/
def drag_and_drop (st : ServerState) (sb sv tb tv timeout : Json)
    (findS findT : Except String Elem) (act : Except String Unit) : Outcome :=
  match get_element st sb sv timeout findS with
  | (Except.error msg, cs) => ⟨st, errText ("Error dragging and dropping: " ++ msg), cs⟩
  | (Except.ok s, cs) =>
    match get_element st tb tv timeout findT with
    | (Except.error msg, ct) =>
        ⟨st, errText ("Error dragging and dropping: " ++ msg), cs ++ ct⟩
    | (Except.ok t, ct) =>
      match chainLookup st with
      | Except.error msg =>
          ⟨st, errText ("Error dragging and dropping: " ++ msg), cs ++ ct⟩
      | Except.ok sid =>
        match act with
        | Except.ok _ =>
            ⟨st, okText ("Dragged from " ++ sv.pyStr ++ " to " ++ tv.pyStr),
             cs ++ ct ++ [EngineCall.dragDropElems sid s t]⟩
        | Except.error msg =>
            ⟨st, errText ("Error dragging and dropping: " ++ msg),
             cs ++ ct ++ [EngineCall.dragDropElems sid s t]⟩

/-- `SeleniumServer.double_click` (server.py:257-277). -/
def double_click (st : ServerState) (b v timeout : Json) (find : Except String Elem)
    (act : Except String Unit) : Outcome :=
  match get_element st b v timeout find with
  | (Except.error msg, cs) => ⟨st, errText ("Error double-clicking: " ++ msg), cs⟩
  | (Except.ok e, cs) =>
    match chainLookup st with
    | Except.error msg => ⟨st, errText ("Error double-clicking: " ++ msg), cs⟩
    | Except.ok sid =>
      match act with
      | Except.ok _ =>
          ⟨st, okText ("Double-clicked element located by " ++ b.pyStr ++ "=" ++ v.pyStr),
           cs ++ [EngineCall.doubleClickElem sid e]⟩
      | Except.error msg =>
          ⟨st, errText ("Error double-clicking: " ++ msg),
           cs ++ [EngineCall.doubleClickElem sid e]⟩

/-- `SeleniumServer.right_click` (server.py:279-299). -/
def right_click (st : ServerState) (b v timeout : Json) (find : Except String Elem)
    (act : Except String Unit) : Outcome :=
  match get_element st b v timeout find with
  | (Except.error msg, cs) => ⟨st, errText ("Error right-clicking element: " ++ msg), cs⟩
  | (Except.ok e, cs) =>
    match chainLookup st with
    | Except.error msg => ⟨st, errText ("Error right-clicking element: " ++ msg), cs⟩
    | Except.ok sid =>
      match act with
      | Except.ok _ =>
          ⟨st, okText ("Right-clicked element located by " ++ b.pyStr ++ "=" ++ v.pyStr),
           cs ++ [EngineCall.contextClickElem sid e]⟩
      | Except.error msg =>
          ⟨st, errText ("Error right-clicking element: " ++ msg),
           cs ++ [EngineCall.contextClickElem sid e]⟩

/-- `SeleniumServer.press_key` (server.py:301-347): check the key against the
fixed table first; with a truthy locator pair resolve it and `send_keys` to
the element, otherwise `self.drivers[self.current_session]` (no falsiness
guard, so a missing current session surfaces as a `KeyError` caught by the
generic handler) and an ActionChains `send_keys`. -/
def press_key (st : ServerState) (key b v timeout : Json) (find : Except String Elem)
    (send : Except String Unit) : Outcome :=
  match key_map key with
  | none => ⟨st, errText ("Unsupported key: " ++ key.pyStr), []⟩
  | some code =>
    if truthy b && truthy v then
      match get_element st b v timeout find with
      | (Except.error msg, cs) => ⟨st, errText ("Error pressing key: " ++ msg), cs⟩
      | (Except.ok e, cs) =>
        match send with
        | Except.ok _ =>
            ⟨st, okText ("Pressed " ++ key.pyStr ++ "."),
             cs ++ [EngineCall.sendKeysTo e (Json.str code)]⟩
        | Except.error msg =>
            ⟨st, errText ("Error pressing key: " ++ msg),
             cs ++ [EngineCall.sendKeysTo e (Json.str code)]⟩
    else
      match chainLookup st with
      | Except.error msg => ⟨st, errText ("Error pressing key: " ++ msg), []⟩
      | Except.ok sid =>
        match send with
        | Except.ok _ =>
            ⟨st, okText ("Pressed " ++ key.pyStr ++ "."), [EngineCall.chainSendKeys sid code]⟩
        | Except.error msg =>
            ⟨st, errText ("Error pressing key: " ++ msg), [EngineCall.chainSendKeys sid code]⟩

/-- `SeleniumServer.upload_file` (server.py:349-382): `os.path.exists` check
first (outside the try block), then resolve the locator and `send_keys` the
absolute path.  `fsExists` and `fsAbs` model `os.path.exists` /
`os.path.abspath` on the local filesystem. -/
def upload_file (st : ServerState) (b v file_path timeout : Json)
    (fsExists : Json → Bool) (fsAbs : Json → String) (find : Except String Elem)
    (send : Except String Unit) : Outcome :=
  if !fsExists file_path then
    ⟨st, errText ("File does not exist: " ++ file_path.pyStr), []⟩
  else
    match get_element st b v timeout find with
    | (Except.error msg, cs) => ⟨st, errText ("Error uploading file: " ++ msg), cs⟩
    | (Except.ok e, cs) =>
      match send with
      | Except.ok _ =>
          ⟨st, okText ("Uploaded file " ++ file_path.pyStr ++ " to element located by " ++
             b.pyStr ++ "=" ++ v.pyStr),
           cs ++ [EngineCall.sendKeysTo e (Json.str (fsAbs file_path))]⟩
      | Except.error msg =>
          ⟨st, errText ("Error uploading file: " ++ msg),
           cs ++ [EngineCall.sendKeysTo e (Json.str (fsAbs file_path))]⟩

/-- `SeleniumServer.take_screenshot` (server.py:384-422).  `shot` is the engine
outcome, already carrying the base64-encoded PNG on success. -/
def take_screenshot (st : ServerState) (shot : Except String String) : Outcome :=
  match activeSession st with
  | none => ⟨st, errText "No active browser session", []⟩
  | some sid =>
    match lookupD st.drivers sid with
    | none => ⟨st, errText ("Error taking screenshot: " ++ keyErrStr sid), []⟩
    | some _ =>
      match shot with
      | Except.ok b64 =>
          ⟨st,
           ⟨[ContentItem.text "Screenshot captured", ContentItem.image b64 "image/png"],
            false, none⟩,
           [EngineCall.screenshot sid]⟩
      | Except.error msg =>
          ⟨st, errText ("Error taking screenshot: " ++ msg), [EngineCall.screenshot sid]⟩

/-- `SeleniumServer.cleanup` (server.py:424-432): best-effort `quit()` on every
driver (failures swallowed), then clear the registry and the current-session
pointer. -/
def cleanup (st : ServerState) : ServerState × List EngineCall :=
  (⟨[], none⟩, st.drivers.map (fun p => EngineCall.quitDriver p.1))

/-- One stdin line after `json.loads`: either the parsed value, or the
`JSONDecodeError` text when the line is not valid JSON. -/
inductive LineIn where
  | bad (msg : String)
  | good (j : Json)

/-- Engine and filesystem outcomes available to the single tool call a
dispatched line can make (one slot per kind of outcall; `drag_and_drop`
resolves two elements, hence `findA`/`findB`). -/
structure Oracle where
  launchR : Except String Nat
  findA : Except String Elem
  findB : Except String Elem
  clearR : Except String Unit
  sendR : Except String Unit
  actR : Except String Unit
  navR : Except String Unit
  shotR : Except String String
  fsExists : Json → Bool
  fsAbs : Json → String

/-- Association-list lookup for the fields of a JSON object (Python dict lookup;
parsed dicts have unique keys). -/
def lookupJ : List (String × Json) → String → Option Json
  | [], _ => none
  | (a, b) :: t, k => if a = k then some b else lookupJ t k

/-- Python `request.get(k)` on a value already known to be a dict (returns
`None` for a missing key). -/
def objGet (req : Json) (k : String) : Json :=
  match req with
  | Json.obj fs => (lookupJ fs k).getD Json.null
  | _ => Json.null

/-- Python `k in request` for a dict. -/
def hasKey (j : Json) (k : String) : Bool :=
  match j with
  | Json.obj fs => (lookupJ fs k).isSome
  | _ => false

/-- Python `x.get(k, dflt)`: the value or the default on a dict, an
`AttributeError` on anything else. -/
def getAttrD (j : Json) (k : String) (dflt : Json) : Except String Json :=
  match j with
  | Json.obj fs => Except.ok ((lookupJ fs k).getD dflt)
  | _ => Except.error (attrGetErr j)

/-- Python `x[k]`: the value on a dict holding the key, a `KeyError` when the
key is missing, a `TypeError` on a non-subscriptable value. -/
def getItem (j : Json) (k : String) : Except String Json :=
  match j with
  | Json.obj fs =>
    match lookupJ fs k with
    | some v => Except.ok v
    | none => Except.error (keyErrStr k)
  | _ => Except.error (subscriptErr j)

/-- Python `a or b` on JSON values. -/
def pyOr (a b : Json) : Json := if truthy a then a else b

/-- JSON encoding of one `content` entry, in the field order of the dict
literals of the source. -/
def ContentItem.toJson : ContentItem → Json
  | ContentItem.text s => Json.obj [("type", Json.str "text"), ("text", Json.str s)]
  | ContentItem.image d m =>
      Json.obj [("type", Json.str "image"), ("data", Json.str d), ("mimeType", Json.str m)]

/-- JSON encoding of a method result dict (`start_browser` success dicts
carry `session_id` between `content` and `isError`). -/
def ToolResult.toJson (r : ToolResult) : Json :=
  match r.sessionId with
  | none =>
      Json.obj [("content", Json.arr (r.content.map ContentItem.toJson)),
                ("isError", Json.bool r.isError)]
  | some sid =>
      Json.obj [("content", Json.arr (r.content.map ContentItem.toJson)),
                ("session_id", Json.str sid),
                ("isError", Json.bool r.isError)]

/-- Error response line `{"jsonrpc": "2.0", "id": ..., "error": {"code": ...,
"message": ...}}`. -/
def rpcError (idv : Json) (code : Int) (msg : String) : Json :=
  Json.obj [("jsonrpc", Json.str "2.0"), ("id", idv),
            ("error", Json.obj [("code", Json.num code), ("message", Json.str msg)])]

/-- Success response line `{"jsonrpc": "2.0", "id": ..., "result": ...}`. -/
def rpcResult (idv : Json) (res : Json) : Json :=
  Json.obj [("jsonrpc", Json.str "2.0"), ("id", idv), ("result", res)]

/-- The expression `result["content"][0]["text"] if result["content"] else
"Unknown error"` of server.py:748 (a leading image item would raise
a `KeyError` on the text key; every result dict the methods build starts with a text
item, so that branch is dead). -/
def firstContentText (r : ToolResult) : Except String String :=
  match r.content with
  | [] => Except.ok "Unknown error"
  | ContentItem.text s :: _ => Except.ok s
  | ContentItem.image _ _ :: _ => Except.error (keyErrStr "text")

/-- Response built from a tool result (server.py:742-756): `isError` results
become a `-32000` error response, others a success response. -/
def wrapResult (idv : Json) (r : ToolResult) : Except String Json :=
  if r.isError then
    match firstContentText r with
    | Except.error e => Except.error e
    | Except.ok msg => Except.ok (rpcError idv (-32000) msg)
  else Except.ok (rpcResult idv r.toJson)

/-- The locator-strategy `enum` list repeated through the manifest. -/
def locatorEnum : Json :=
  Json.arr [Json.str "id", Json.str "css", Json.str "xpath", Json.str "name",
            Json.str "tag", Json.str "class"]

/-- Manifest schema of a required `by` parameter. -/
def byProp : Json := Json.obj [("type", Json.str "string"), ("enum", locatorEnum)]

/-- Manifest schema of the optional `by` parameter of `press_key`. -/
def byPropOpt : Json :=
  Json.obj [("type", Json.str "string"), ("enum", locatorEnum),
            ("description", Json.str "Optional: target element")]

/-- Manifest schema of a plain string parameter. -/
def strType : Json := Json.obj [("type", Json.str "string")]

/-- Manifest schema of the `timeout` parameter. -/
def timeoutProp : Json := Json.obj [("type", Json.str "integer"), ("default", Json.num 10)]

/-- One tool entry of the `initialize` manifest. -/
def toolSpec (toolName descr : String) (params : List (String × Json))
    (required : List String) : Json :=
  Json.obj [("name", Json.str toolName), ("description", Json.str descr),
            ("parameters", Json.obj params), ("required", Json.arr (required.map Json.str))]

/-- The `tools` array of the `initialize` manifest (server.py:473-645). -/
def toolsManifest : Json := Json.arr [
  toolSpec "start_browser" "Start a new browser session"
    [("browser", Json.obj [("type", Json.str "string"),
        ("enum", Json.arr [Json.str "chrome", Json.str "firefox"])]),
     ("options", Json.obj [("type", Json.str "object"),
        ("properties", Json.obj [
          ("headless", Json.obj [("type", Json.str "boolean")]),
          ("arguments", Json.obj [("type", Json.str "array"),
             ("items", Json.obj [("type", Json.str "string")])])])])]
    ["browser"],
  toolSpec "navigate" "Navigate to a URL"
    [("url", Json.obj [("type", Json.str "string"), ("format", Json.str "uri")])]
    ["url"],
  toolSpec "find_element" "Find an element on the page"
    [("by", byProp), ("value", strType), ("timeout", timeoutProp)]
    ["by", "value"],
  toolSpec "click_element" "Click on an element"
    [("by", byProp), ("value", strType), ("timeout", timeoutProp)]
    ["by", "value"],
  toolSpec "type_text" "Type text into an input element"
    [("by", byProp), ("value", strType), ("text", strType),
     ("clear_first", Json.obj [("type", Json.str "boolean"), ("default", Json.bool true)]),
     ("timeout", timeoutProp)]
    ["by", "value", "text"],
  toolSpec "hover" "Mouse hover over an element"
    [("by", byProp), ("value", strType), ("timeout", timeoutProp)]
    ["by", "value"],
  toolSpec "drag_and_drop" "Drag and drop an element to a target location"
    [("source_by", byProp), ("source_value", strType),
     ("target_by", byProp), ("target_value", strType), ("timeout", timeoutProp)]
    ["source_by", "source_value", "target_by", "target_value"],
  toolSpec "double_click" "Double click on an element"
    [("by", byProp), ("value", strType), ("timeout", timeoutProp)]
    ["by", "value"],
  toolSpec "right_click" "Right click on an element"
    [("by", byProp), ("value", strType), ("timeout", timeoutProp)]
    ["by", "value"],
  toolSpec "press_key" "Press a keyboard key"
    [("key", Json.obj [("type", Json.str "string"),
        ("enum", Json.arr [Json.str "ENTER", Json.str "TAB", Json.str "ESCAPE",
          Json.str "BACKSPACE", Json.str "DELETE", Json.str "ARROW_DOWN",
          Json.str "ARROW_UP", Json.str "ARROW_LEFT", Json.str "ARROW_RIGHT"])]),
     ("by", byPropOpt),
     ("value", Json.obj [("type", Json.str "string"),
        ("description", Json.str "Optional: target element")]),
     ("timeout", timeoutProp)]
    ["key"],
  toolSpec "upload_file" "Upload a file using a file input element"
    [("by", byProp), ("value", strType), ("file_path", strType), ("timeout", timeoutProp)]
    ["by", "value", "file_path"],
  toolSpec "take_screenshot" "Take a screenshot of the current page." [] []]

/-- The `initialize` result manifest (server.py:470-646). -/
def initResult : Json :=
  Json.obj [("name", Json.str "selenium"), ("version", Json.str "0.2.0"),
            ("tools", toolsManifest)]

/-- Response to an `initialize` request. -/
def initResponse (idv : Json) : Json := rpcResult idv initResult

/-- The tool names the `if/elif` dispatch of `handle_stdio` recognizes. -/
def knownTools : List String :=
  ["start_browser", "navigate", "find_element", "click_element", "type_text", "hover",
   "drag_and_drop", "double_click", "right_click", "press_key", "upload_file",
   "take_screenshot"]

/-- Envelope normalization of server.py:652-658: a top-level `tool` key wins
(`parameters` defaulting to an empty dict), otherwise tool and parameters are
read from a `params` wrapper. -/
def extractInvoke (req : Json) : Except String (Json × Json) :=
  if hasKey req "tool" then do
    let tool ← getItem req "tool"
    let params ← getAttrD req "parameters" (Json.obj [])
    Except.ok (tool, params)
  else do
    let pobj ← getAttrD req "params" (Json.obj [])
    let tool ← getAttrD pobj "tool" Json.null
    let params ← getAttrD pobj "parameters" (Json.obj [])
    Except.ok (tool, params)

/-- The `if/elif` tool dispatch of server.py:661-740, including the argument
extraction (`params[...]` / `params.get(...)`) of each branch and the response
construction of server.py:742-756.  An `Except.error` is an exception escaping
the per-line `try` (caught by the generic handler); an unknown tool is the
`-32601` response of server.py:728-740. -/
def dispatchTool (st : ServerState) (o : Oracle) (idv tool params : Json) :
    Except String (ServerState × Json) :=
  if tool.eqStr "start_browser" then do
    let browser ← getAttrD params "browser" Json.null
    let options ← getAttrD params "options" Json.null
    let out := start_browser st browser options o.launchR
    let resp ← wrapResult idv out.result
    Except.ok (out.state, resp)
  else if tool.eqStr "navigate" then do
    let url ← getItem params "url"
    let out := navigate st url o.navR
    let resp ← wrapResult idv out.result
    Except.ok (out.state, resp)
  else if tool.eqStr "find_element" then do
    let b ← getItem params "by"
    let v ← getItem params "value"
    let timeout ← getAttrD params "timeout" (Json.num 10)
    let out := find_element st b v timeout o.findA
    let resp ← wrapResult idv out.result
    Except.ok (out.state, resp)
  else if tool.eqStr "click_element" then do
    let b ← getItem params "by"
    let v ← getItem params "value"
    let timeout ← getAttrD params "timeout" (Json.num 10)
    let out := click_element st b v timeout o.findA o.actR
    let resp ← wrapResult idv out.result
    Except.ok (out.state, resp)
  else if tool.eqStr "type_text" then do
    let b ← getItem params "by"
    let v ← getItem params "value"
    let textv ← getItem params "text"
    let clear_first ← getAttrD params "clear_first" (Json.bool true)
    let timeout ← getAttrD params "timeout" (Json.num 10)
    let out := type_text st b v textv clear_first timeout o.findA o.clearR o.sendR
    let resp ← wrapResult idv out.result
    Except.ok (out.state, resp)
  else if tool.eqStr "hover" then do
    let b ← getItem params "by"
    let v ← getItem params "value"
    let timeout ← getAttrD params "timeout" (Json.num 10)
    let out := hover st b v timeout o.findA o.actR
    let resp ← wrapResult idv out.result
    Except.ok (out.state, resp)
  else if tool.eqStr "drag_and_drop" then do
    let sb ← getItem params "source_by"
    let sv ← getItem params "source_value"
    let tb ← getItem params "target_by"
    let tv ← getItem params "target_value"
    let timeout ← getAttrD params "timeout" (Json.num 10)
    let out := drag_and_drop st sb sv tb tv timeout o.findA o.findB o.actR
    let resp ← wrapResult idv out.result
    Except.ok (out.state, resp)
  else if tool.eqStr "double_click" then do
    let b ← getItem params "by"
    let v ← getItem params "value"
    let timeout ← getAttrD params "timeout" (Json.num 10)
    let out := double_click st b v timeout o.findA o.actR
    let resp ← wrapResult idv out.result
    Except.ok (out.state, resp)
  else if tool.eqStr "right_click" then do
    let b ← getItem params "by"
    let v ← getItem params "value"
    let timeout ← getAttrD params "timeout" (Json.num 10)
    let out := right_click st b v timeout o.findA o.actR
    let resp ← wrapResult idv out.result
    Except.ok (out.state, resp)
  else if tool.eqStr "press_key" then do
    let key ← getItem params "key"
    let b ← getAttrD params "by" Json.null
    let v ← getAttrD params "value" Json.null
    let timeout ← getAttrD params "timeout" (Json.num 10)
    let out := press_key st key b v timeout o.findA o.sendR
    let resp ← wrapResult idv out.result
    Except.ok (out.state, resp)
  else if tool.eqStr "upload_file" then do
    let b ← getItem params "by"
    let v ← getItem params "value"
    let file_path ← getItem params "file_path"
    let timeout ← getAttrD params "timeout" (Json.num 10)
    let out := upload_file st b v file_path timeout o.fsExists o.fsAbs o.findA o.sendR
    let resp ← wrapResult idv out.result
    Except.ok (out.state, resp)
  else if tool.eqStr "take_screenshot" then do
    let out := take_screenshot st o.shotR
    let resp ← wrapResult idv out.result
    Except.ok (out.state, resp)
  else
    Except.ok (st, rpcError idv (-32601) ("Unknown tool: " ++ tool.pyStr))

/-- Outcome of processing one line: a response written plus the loop state
carried forward (`bound` is the last value held by the Python local
`request`), or an uncaught exception killing the process. -/
inductive StepRes where
  | cont (resp : Json) (st : ServerState) (bound : Option Json)
  | died (msg : String)

/-- The generic `except Exception` handler of server.py:773-784.  It reads
`request.get("id")`: before any line was parsed that local is unbound
(`UnboundLocalError`), and when the last parsed value was not a dict the
lookup itself raises again; either way the new exception escapes the loop. -/
def exceptBlock (st : ServerState) (bound : Option Json) (msg : String) : StepRes :=
  match bound with
  | none => StepRes.died unboundRequestMsg
  | some req =>
    match req with
    | Json.obj _ => StepRes.cont (rpcError (objGet req "id") (-32000) msg) st bound
    | _ => StepRes.died (attrGetErr req)

/-- Dispatch of one stdin line (the body of the `while` loop of
`handle_stdio`, server.py:458-784). -/
def handle_line (st : ServerState) (bound : Option Json) (l : LineIn) (o : Oracle) :
    StepRes :=
  match l with
  | LineIn.bad msg => exceptBlock st bound msg
  | LineIn.good req =>
    match req with
    | Json.obj _ =>
      let method := pyOr (objGet req "method") (objGet req "type")
      if method.eqStr "initialize" then
        StepRes.cont (initResponse (objGet req "id")) st (some req)
      else if method.eqStr "invoke" then
        match extractInvoke req with
        | Except.error e => exceptBlock st (some req) e
        | Except.ok (tool, params) =>
          match dispatchTool st o (objGet req "id") tool params with
          | Except.error e => exceptBlock st (some req) e
          | Except.ok (st2, resp) => StepRes.cont resp st2 (some req)
      else
        StepRes.cont
          (rpcError (objGet req "id") (-32601) ("Unknown method: " ++ method.pyStr))
          st (some req)
    | _ => StepRes.died (attrGetErr req)

/-- Result of the whole stdio loop: normal termination at end-of-stream (with
the responses written, the state after `server.cleanup()` and the `quit`
calls it made), or a crash from an uncaught exception (no cleanup runs). -/
inductive RunResult where
  | finished (responses : List Json) (finalState : ServerState)
      (cleanupCalls : List EngineCall)
  | crashed (responses : List Json) (st : ServerState) (msg : String)

/-- The `while` loop of `handle_stdio` from a given state (server.py:458-786):
each line yields exactly one response and the loop continues, until
end-of-stream triggers `server.cleanup()` — unless an uncaught exception
escapes, in which case the process dies without cleanup. -/
def handle_stdio_from (st : ServerState) (bound : Option Json) :
    List (LineIn × Oracle) → RunResult
  | [] =>
    let (fin, calls) := cleanup st
    RunResult.finished [] fin calls
  | (l, o) :: rest =>
    match handle_line st bound l o with
    | StepRes.died msg => RunResult.crashed [] st msg
    | StepRes.cont resp st2 bound2 =>
      match handle_stdio_from st2 bound2 rest with
      | RunResult.finished rs fin cc => RunResult.finished (resp :: rs) fin cc
      | RunResult.crashed rs s m => RunResult.crashed (resp :: rs) s m

/-- `handle_stdio` (server.py:454-786) on a finite stdin stream, starting from
the freshly constructed server. -/
def handle_stdio (lines : List (LineIn × Oracle)) : RunResult :=
  handle_stdio_from initState none lines

/-- Concrete element value used to instantiate engine outcomes in closed runs. -/
def elem0 : Elem := ⟨"div", "", true, true, 0, 0, 0, 0⟩

/-- Oracle with every outcall succeeding trivially and an empty filesystem. -/
def oracle0 : Oracle :=
  ⟨Except.ok 1, Except.ok elem0, Except.ok elem0, Except.ok (), Except.ok (),
   Except.ok (), Except.ok (), Except.ok "", fun _ => false, fun _ => ""⟩

/-- State holding one chrome session (driver id 1) which is current. -/
def sessionState1 : ServerState := ⟨[("chrome_1", 1)], some "chrome_1"⟩

/-- Does `pat` start `s` (character lists)? -/
def seqStarts : List Char → List Char → Bool
  | [], _ => true
  | _ :: _, [] => false
  | p :: ps, c :: cs => p == c && seqStarts ps cs

/-- Does `pat` occur contiguously inside the second list? -/
def seqContains (pat : List Char) : List Char → Bool
  | [] => pat.isEmpty
  | c :: rest => seqStarts pat (c :: rest) || seqContains pat rest

/-- Substring test on strings. -/
def strContains (s pat : String) : Bool := seqContains pat.toList s.toList

/-- Does a result dict mention the no-active-session condition in any of its
text content items? -/
def mentionsNoSession (r : ToolResult) : Bool :=
  r.content.any fun c =>
    match c with
    | ContentItem.text s => strContains s "No active browser session"
    | ContentItem.image _ _ => false

/-- Response emitted by a line step, when the process survives it. -/
def respOf : StepRes → Option Json
  | StepRes.cont r _ _ => some r
  | StepRes.died _ => none

/-- Server state after a line step, when the process survives it. -/
def stateOf : StepRes → Option ServerState
  | StepRes.cont _ s _ => some s
  | StepRes.died _ => none

/-- One operation on the server (a `SeleniumServer` method call together with
its engine outcomes), for stating reachability of registry states. -/
inductive Op where
  | opStart (browser options : Json) (attempt : Except String Nat)
  | opNavigate (url : Json) (nav : Except String Unit)
  | opFind (b v t : Json) (find : Except String Elem)
  | opClick (b v t : Json) (find : Except String Elem) (act : Except String Unit)
  | opType (b v tx cf t : Json) (find : Except String Elem) (clearR sendR : Except String Unit)
  | opHover (b v t : Json) (find : Except String Elem) (act : Except String Unit)
  | opDrag (sb sv tb tv t : Json) (findS findT : Except String Elem) (act : Except String Unit)
  | opDouble (b v t : Json) (find : Except String Elem) (act : Except String Unit)
  | opRight (b v t : Json) (find : Except String Elem) (act : Except String Unit)
  | opPress (k b v t : Json) (find : Except String Elem) (send : Except String Unit)
  | opUpload (b v fp t : Json) (fe : Json → Bool) (fa : Json → String)
      (find : Except String Elem) (send : Except String Unit)
  | opShot (shot : Except String String)
  | opCleanup

/-- Server state after one operation (the state component of each method). -/
def applyOp (st : ServerState) : Op → ServerState
  | Op.opStart b o a => (start_browser st b o a).state
  | Op.opNavigate u n => (navigate st u n).state
  | Op.opFind b v t f => (find_element st b v t f).state
  | Op.opClick b v t f a => (click_element st b v t f a).state
  | Op.opType b v tx cf t f c s => (type_text st b v tx cf t f c s).state
  | Op.opHover b v t f a => (hover st b v t f a).state
  | Op.opDrag sb sv tb tv t fs ft a => (drag_and_drop st sb sv tb tv t fs ft a).state
  | Op.opDouble b v t f a => (double_click st b v t f a).state
  | Op.opRight b v t f a => (right_click st b v t f a).state
  | Op.opPress k b v t f s => (press_key st k b v t f s).state
  | Op.opUpload b v fp t fe fa f s => (upload_file st b v fp t fe fa f s).state
  | Op.opShot sh => (take_screenshot st sh).state
  | Op.opCleanup => (cleanup st).1

/-- Registry invariant: the current-session pointer, when set, is a key of the
drivers registry. -/
def RegistryInv (st : ServerState) : Prop :=
  ∀ s, st.currentSession = some s → (lookupD st.drivers s).isSome = true

/-- Invoke request carrying tool and parameters at the top level. -/
def invokeTop (idv tool params : Json) : Json :=
  Json.obj [("method", Json.str "invoke"), ("id", idv), ("tool", tool),
            ("parameters", params)]

/-- Invoke request nesting tool and parameters under a `params` wrapper. -/
def invokeNested (idv tool params : Json) : Json :=
  Json.obj [("method", Json.str "invoke"), ("id", idv),
            ("params", Json.obj [("tool", tool), ("parameters", params)])]

/-- Invoke request keyed by `type` instead of `method`. -/
def invokeTyped (idv tool params : Json) : Json :=
  Json.obj [("type", Json.str "invoke"), ("id", idv), ("tool", tool),
            ("parameters", params)]

/-- The tail of `handle_line` once an invoke envelope has been normalized to a
tool name and parameters: every invoke request reduces definitionally to this,
carrying its own request value only for the `id`-lookup of the error path and
the `bound` bookkeeping. -/
def invokeStep (st : ServerState) (o : Oracle) (idv tool params req : Json) : StepRes :=
  match dispatchTool st o idv tool params with
  | Except.error e => exceptBlock st (some req) e
  | Except.ok (st2, resp) => StepRes.cont resp st2 (some req)

theorem Json.eqStr_eq_false {j : Json} {t : String} (h : j ≠ Json.str t) :
    Json.eqStr j t = false := by
  cases j <;> simp [Json.eqStr]
  rename_i s
  intro hs
  exact h (by rw [hs])

theorem key_map_of_unsupported {s : String} (h : s ∉ supportedKeys) :
    key_map (Json.str s) = none := by
  simp [supportedKeys] at h
  obtain ⟨h1, h2, h3, h4, h5, h6, h7, h8, h9⟩ := h
  simp [key_map, h1, h2, h3, h4, h5, h6, h7, h8, h9]

/-- C4: a `start_browser` call whose browser kind is outside {chrome, firefox}
returns the unsupported-browser error result, leaves the whole server state
(registry and current-session pointer) unchanged, and performs no engine call. -/
theorem start_browser_unsupported_kind (st : ServerState) (browser options : Json)
    (attempt : Except String Nat)
    (hc : browser ≠ Json.str "chrome") (hf : browser ≠ Json.str "firefox") :
    start_browser st browser options attempt
      = ⟨st, errText ("Unsupported browser: " ++ browser.pyStr), []⟩ := by
  simp [start_browser, Json.eqStr_eq_false hc, Json.eqStr_eq_false hf]

theorem start_browser_unsupported_kind_witness :
    start_browser initState (Json.str "safari") Json.null (Except.ok 1)
      = ⟨initState, errText "Unsupported browser: safari", []⟩ :=
  start_browser_unsupported_kind initState (Json.str "safari") Json.null (Except.ok 1)
    (fun h => by injection h with h2; exact absurd h2 (by decide))
    (fun h => by injection h with h2; exact absurd h2 (by decide))

/-- C6: `press_key` with a key name outside the fixed nine-entry table returns
the unsupported-key error with the state unchanged and no engine call at all
(so before any session access or locator resolution), whether or not a
session exists. -/
theorem press_key_unsupported_key (st : ServerState) (key b v timeout : Json)
    (find : Except String Elem) (send : Except String Unit)
    (h : ∀ s : String, key = Json.str s → s ∉ supportedKeys) :
    press_key st key b v timeout find send
      = ⟨st, errText ("Unsupported key: " ++ key.pyStr), []⟩ := by
  have hk : key_map key = none := by
    cases key with
    | str s => exact key_map_of_unsupported (h s rfl)
    | null => rfl
    | bool bb => rfl
    | num nn => rfl
    | arr xs => rfl
    | obj fs => rfl
  simp [press_key, hk]

theorem press_key_unsupported_key_witness :
    press_key sessionState1 (Json.str "F1") Json.null Json.null (Json.num 10)
        (Except.ok elem0) (Except.ok ())
      = ⟨sessionState1, errText "Unsupported key: F1", []⟩ :=
  press_key_unsupported_key sessionState1 (Json.str "F1") Json.null Json.null (Json.num 10)
    (Except.ok elem0) (Except.ok ())
    (fun s hs => by injection hs with h2; subst h2; decide)

/-- C7: `upload_file` on a path that does not exist on the local filesystem
returns the file-not-found error with the state unchanged and no engine call
(so before any locator resolution, and hence before any session access). -/
theorem upload_file_missing_path (st : ServerState) (b v file_path timeout : Json)
    (fsE : Json → Bool) (fsA : Json → String) (find : Except String Elem)
    (send : Except String Unit) (h : fsE file_path = false) :
    upload_file st b v file_path timeout fsE fsA find send
      = ⟨st, errText ("File does not exist: " ++ file_path.pyStr), []⟩ := by
  simp [upload_file, h]

theorem upload_file_missing_path_witness :
    upload_file sessionState1 (Json.str "id") (Json.str "f") (Json.str "/tmp/nope.txt")
        (Json.num 10) (fun _ => false) (fun _ => "") (Except.ok elem0) (Except.ok ())
      = ⟨sessionState1, errText "File does not exist: /tmp/nope.txt", []⟩ :=
  upload_file_missing_path sessionState1 (Json.str "id") (Json.str "f")
    (Json.str "/tmp/nope.txt") (Json.num 10) (fun _ => false) (fun _ => "")
    (Except.ok elem0) (Except.ok ()) rfl

/-- C10: for a supported browser kind, when constructing the driver raises,
`start_browser` returns an error result and leaves the registry and the
current-session pointer exactly as they were (so a previously current session
remains current). -/
theorem start_browser_launch_failure (st : ServerState) (browser options : Json) (e : String)
    (h : browser = Json.str "chrome" ∨ browser = Json.str "firefox") :
    start_browser st browser options (Except.error e)
      = ⟨st, errText ("Error starting browser: " ++ e),
         [EngineCall.launch browser (if truthy options then options else Json.obj [])]⟩ := by
  rcases h with h | h <;> subst h <;> rfl

theorem start_browser_launch_failure_witness :
    start_browser sessionState1 (Json.str "firefox") Json.null (Except.error "boom")
      = ⟨sessionState1, errText "Error starting browser: boom",
         [EngineCall.launch (Json.str "firefox") (Json.obj [])]⟩ :=
  start_browser_launch_failure sessionState1 (Json.str "firefox") Json.null "boom"
    (Or.inr rfl)

/-- C3 counterexample: two elements that differ in visibility, enabled state,
position and size (agreeing only on tag name and text) produce identical
`find_element` success results, so the result does not report those
attributes. -/
theorem find_element_result_omits_attributes :
    (⟨"div", "hello", true, true, 1, 2, 3, 4⟩ : Elem)
        ≠ (⟨"div", "hello", false, false, 9, 9, 9, 9⟩ : Elem)
    ∧ find_element sessionState1 (Json.str "id") (Json.str "x") (Json.num 10)
        (Except.ok ⟨"div", "hello", true, true, 1, 2, 3, 4⟩)
      = find_element sessionState1 (Json.str "id") (Json.str "x") (Json.num 10)
        (Except.ok ⟨"div", "hello", false, false, 9, 9, 9, 9⟩) :=
  ⟨by decide, rfl⟩

/-- C3 amended: a successful `find_element` (active session, known locator
strategy, element resolved) reports exactly the tag name and text of the element
content, nothing more. -/
theorem find_element_reports_tag_text (st : ServerState) (sid : String) (d : Nat)
    (b v timeout : Json) (strat : String) (e : Elem)
    (hs : activeSession st = some sid) (hd : lookupD st.drivers sid = some d)
    (hb : by_map_get b = some strat) :
    find_element st b v timeout (Except.ok e)
      = ⟨st,
         ⟨[ContentItem.text "Element found.",
           ContentItem.text ("tag_name: " ++ e.tagName ++ ", text: " ++ e.text)],
          false, none⟩,
         [EngineCall.findElem sid strat v timeout]⟩ := by
  simp [find_element, get_element, hs, hd, hb]

theorem find_element_reports_tag_text_witness :
    find_element sessionState1 (Json.str "css") (Json.str "#x") (Json.num 10)
        (Except.ok ⟨"a", "link", true, true, 0, 0, 5, 5⟩)
      = ⟨sessionState1,
         ⟨[ContentItem.text "Element found.", ContentItem.text "tag_name: a, text: link"],
          false, none⟩,
         [EngineCall.findElem "chrome_1" "css selector" (Json.str "#x") (Json.num 10)]⟩ :=
  find_element_reports_tag_text sessionState1 "chrome_1" 1 (Json.str "css") (Json.str "#x")
    (Json.num 10) "css selector" ⟨"a", "link", true, true, 0, 0, 5, 5⟩ rfl rfl rfl

theorem get_element_no_session (st : ServerState) (h : st.currentSession = none)
    (b v t : Json) (f : Except String Elem) :
    get_element st b v t f = (Except.error "No active browser session", []) := by
  simp [get_element, activeSession, h]

/-- C5 counterexample: `press_key` for a supported key without a locator, when
no session has been started, reaches the unguarded registry lookup
`self.drivers[None]` and is answered with the text of that `KeyError` — an
error result, but not the no-active-session one. -/
theorem press_key_no_locator_no_session :
    press_key initState (Json.str "ENTER") Json.null Json.null (Json.num 10)
        (Except.error "unused") (Except.ok ())
      = ⟨initState, errText "Error pressing key: None", []⟩
    ∧ mentionsNoSession (press_key initState (Json.str "ENTER") Json.null Json.null
        (Json.num 10) (Except.error "unused") (Except.ok ())).result = false :=
  ⟨rfl, rfl⟩

/-- C5 amended: with no session started, every element-targeted operation
returns an error with the no-active-session message and performs no engine
call — except that `press_key` reaches this only for a supported key with a
truthy locator pair (without a locator it fails on the registry lookup
instead, still with no engine call) and `upload_file` only for an existing
file path (the existence check runs first). -/
theorem no_session_element_ops (st : ServerState) (h : st.currentSession = none) :
    (∀ url nav, navigate st url nav = ⟨st, errText "No active browser session", []⟩)
    ∧ (∀ b v t f, find_element st b v t f
        = ⟨st, errText "Error finding element: No active browser session", []⟩)
    ∧ (∀ b v t f a, click_element st b v t f a
        = ⟨st, errText "Error clicking element: No active browser session", []⟩)
    ∧ (∀ b v tx cf t f c s, type_text st b v tx cf t f c s
        = ⟨st, errText "Error typing text: No active browser session", []⟩)
    ∧ (∀ b v t f a, hover st b v t f a
        = ⟨st, errText "Error hovering over element: No active browser session", []⟩)
    ∧ (∀ sb sv tb tv t f1 f2 a, drag_and_drop st sb sv tb tv t f1 f2 a
        = ⟨st, errText "Error dragging and dropping: No active browser session", []⟩)
    ∧ (∀ b v t f a, double_click st b v t f a
        = ⟨st, errText "Error double-clicking: No active browser session", []⟩)
    ∧ (∀ b v t f a, right_click st b v t f a
        = ⟨st, errText "Error right-clicking element: No active browser session", []⟩)
    ∧ (∀ k c b v t f s, key_map k = some c → truthy b = true → truthy v = true →
        press_key st k b v t f s
        = ⟨st, errText "Error pressing key: No active browser session", []⟩)
    ∧ (∀ k c t f s, key_map k = some c →
        press_key st k Json.null Json.null t f s
        = ⟨st, errText "Error pressing key: None", []⟩)
    ∧ (∀ b v fp t fe fa f s, fe fp = true →
        upload_file st b v fp t fe fa f s
        = ⟨st, errText "Error uploading file: No active browser session", []⟩)
    ∧ (∀ sh, take_screenshot st sh = ⟨st, errText "No active browser session", []⟩) := by
  have hg := get_element_no_session st h
  refine ⟨?_, ?_, ?_, ?_, ?_, ?_, ?_, ?_, ?_, ?_, ?_, ?_⟩
  · intro url nav; simp [navigate, activeSession, h]
  · intro b v t f; simp [find_element, hg]
  · intro b v t f a; simp [click_element, hg]
  · intro b v tx cf t f c s; simp [type_text, hg]
  · intro b v t f a; simp [hover, hg]
  · intro sb sv tb tv t f1 f2 a; simp [drag_and_drop, hg]
  · intro b v t f a; simp [double_click, hg]
  · intro b v t f a; simp [right_click, hg]
  · intro k c b v t f s hk hb hv; simp [press_key, hk, hb, hv, hg]
  · intro k c t f s hk; simp [press_key, hk, truthy, chainLookup, h]
  · intro b v fp t fe fa f s hfe; simp [upload_file, hfe, hg]
  · intro sh; simp [take_screenshot, activeSession, h]

theorem no_session_element_ops_witness :
    navigate initState (Json.str "http://e") (Except.ok ())
      = ⟨initState, errText "No active browser session", []⟩
    ∧ press_key initState (Json.str "TAB") (Json.str "id") (Json.str "x") (Json.num 10)
        (Except.ok elem0) (Except.ok ())
      = ⟨initState, errText "Error pressing key: No active browser session", []⟩ :=
  ⟨(no_session_element_ops initState rfl).1 _ _,
   (no_session_element_ops initState rfl).2.2.2.2.2.2.2.2.1 _ _ _ _ _ _ _ rfl rfl rfl⟩

theorem lookupD_insert (ds : List (String × Nat)) (k : String) (v : Nat) :
    lookupD (insertDriver ds k v) k = some v := by
  induction ds with
  | nil => simp [insertDriver, lookupD]
  | cons p t ih =>
    obtain ⟨a, b⟩ := p
    by_cases hak : a = k
    · simp [insertDriver, hak, lookupD]
    · simp [insertDriver, hak, lookupD, ih]

theorem navigate_state (st : ServerState) (u : Json) (n : Except String Unit) :
    (navigate st u n).state = st := by
  unfold navigate; repeat' split
  all_goals rfl

theorem find_element_state (st : ServerState) (b v t : Json) (f : Except String Elem) :
    (find_element st b v t f).state = st := by
  unfold find_element; repeat' split
  all_goals rfl

theorem click_element_state (st : ServerState) (b v t : Json) (f : Except String Elem)
    (a : Except String Unit) : (click_element st b v t f a).state = st := by
  unfold click_element; repeat' split
  all_goals rfl

theorem type_text_state (st : ServerState) (b v tx cf t : Json) (f : Except String Elem)
    (c s : Except String Unit) : (type_text st b v tx cf t f c s).state = st := by
  unfold type_text; repeat' split
  all_goals rfl

theorem hover_state (st : ServerState) (b v t : Json) (f : Except String Elem)
    (a : Except String Unit) : (hover st b v t f a).state = st := by
  unfold hover; repeat' split
  all_goals rfl

theorem drag_and_drop_state (st : ServerState) (sb sv tb tv t : Json)
    (f1 f2 : Except String Elem) (a : Except String Unit) :
    (drag_and_drop st sb sv tb tv t f1 f2 a).state = st := by
  unfold drag_and_drop; repeat' split
  all_goals rfl

theorem double_click_state (st : ServerState) (b v t : Json) (f : Except String Elem)
    (a : Except String Unit) : (double_click st b v t f a).state = st := by
  unfold double_click; repeat' split
  all_goals rfl

theorem right_click_state (st : ServerState) (b v t : Json) (f : Except String Elem)
    (a : Except String Unit) : (right_click st b v t f a).state = st := by
  unfold right_click; repeat' split
  all_goals rfl

theorem press_key_state (st : ServerState) (k b v t : Json) (f : Except String Elem)
    (s : Except String Unit) : (press_key st k b v t f s).state = st := by
  unfold press_key; repeat' split
  all_goals rfl

theorem upload_file_state (st : ServerState) (b v fp t : Json) (fe : Json → Bool)
    (fa : Json → String) (f : Except String Elem) (s : Except String Unit) :
    (upload_file st b v fp t fe fa f s).state = st := by
  unfold upload_file; repeat' split
  all_goals rfl

theorem take_screenshot_state (st : ServerState) (sh : Except String String) :
    (take_screenshot st sh).state = st := by
  unfold take_screenshot; repeat' split
  all_goals rfl

theorem start_browser_state_cases (st : ServerState) (b o : Json) (a : Except String Nat) :
    (start_browser st b o a).state = st
    ∨ ∃ hh : Nat, (start_browser st b o a).state
        = ⟨insertDriver st.drivers (b.pyStr ++ "_" ++ toString hh) hh,
           some (b.pyStr ++ "_" ++ toString hh)⟩ := by
  unfold start_browser
  by_cases hc : (b.eqStr "chrome" || b.eqStr "firefox") = true
  · cases a with
    | error e => left; simp [hc]
    | ok hh => right; exact ⟨hh, by simp [hc]⟩
  · left; simp [hc]

theorem applyOp_preserves (st : ServerState) (op : Op) (h : RegistryInv st) :
    RegistryInv (applyOp st op) := by
  cases op with
  | opStart b o a =>
    show RegistryInv (start_browser st b o a).state
    rcases start_browser_state_cases st b o a with hst | ⟨hh, hst⟩
    · rw [hst]; exact h
    · rw [hst]
      intro s hs
      simp only [Option.some.injEq] at hs
      subst hs
      simp [lookupD_insert]
  | opNavigate u n => show RegistryInv (navigate st u n).state; rw [navigate_state]; exact h
  | opFind b v t f =>
    show RegistryInv (find_element st b v t f).state
    rw [find_element_state]; exact h
  | opClick b v t f a =>
    show RegistryInv (click_element st b v t f a).state
    rw [click_element_state]; exact h
  | opType b v tx cf t f c s =>
    show RegistryInv (type_text st b v tx cf t f c s).state
    rw [type_text_state]; exact h
  | opHover b v t f a =>
    show RegistryInv (hover st b v t f a).state
    rw [hover_state]; exact h
  | opDrag sb sv tb tv t f1 f2 a =>
    show RegistryInv (drag_and_drop st sb sv tb tv t f1 f2 a).state
    rw [drag_and_drop_state]; exact h
  | opDouble b v t f a =>
    show RegistryInv (double_click st b v t f a).state
    rw [double_click_state]; exact h
  | opRight b v t f a =>
    show RegistryInv (right_click st b v t f a).state
    rw [right_click_state]; exact h
  | opPress k b v t f s =>
    show RegistryInv (press_key st k b v t f s).state
    rw [press_key_state]; exact h
  | opUpload b v fp t fe fa f s =>
    show RegistryInv (upload_file st b v fp t fe fa f s).state
    rw [upload_file_state]; exact h
  | opShot sh =>
    show RegistryInv (take_screenshot st sh).state
    rw [take_screenshot_state]; exact h
  | opCleanup =>
    intro s hs
    exact Option.noConfusion hs

theorem foldl_registry_inv (ops : List Op) :
    ∀ st, RegistryInv st → RegistryInv (List.foldl applyOp st ops) := by
  induction ops with
  | nil => intro st h; exact h
  | cons op t ih => intro st h; exact ih _ (applyOp_preserves st op h)

/-- C9: in every server state reachable from the initial state by any sequence
of operations (`start_browser`, every element operation, `cleanup`), a set
current-session pointer is a key present in the drivers registry, so the
dispatch-time lookup of the current session handle cannot miss. -/
theorem reachable_current_session_in_registry (ops : List Op) (s : String)
    (h : (List.foldl applyOp initState ops).currentSession = some s) :
    (lookupD (List.foldl applyOp initState ops).drivers s).isSome = true :=
  foldl_registry_inv ops initState (fun _ hs => Option.noConfusion hs) s h

theorem reachable_current_session_in_registry_witness :
    (List.foldl applyOp initState
        [Op.opStart (Json.str "chrome") Json.null (Except.ok 1)]).currentSession
      = some "chrome_1"
    ∧ (lookupD (List.foldl applyOp initState
        [Op.opStart (Json.str "chrome") Json.null (Except.ok 1)]).drivers
        "chrome_1").isSome = true :=
  ⟨rfl, reachable_current_session_in_registry
    [Op.opStart (Json.str "chrome") Json.null (Except.ok 1)] "chrome_1" rfl⟩

/-- C2: the loop is not proof against arbitrary lines.  A line whose JSON value
is not an object (here `5`) makes the `request.get("id")` of the generic handler itself
raise a second `AttributeError`, and a malformed very first line makes the
handler read the still-unbound local `request`; in both runs the process dies
with no response emitted for the line and no session cleanup. -/
theorem nonobject_or_first_bad_line_fatal :
    handle_stdio [(LineIn.good (Json.num 5), oracle0)]
      = RunResult.crashed [] initState (attrGetErr (Json.num 5))
    ∧ handle_stdio [(LineIn.bad "Expecting value: line 1 column 1 (char 0)", oracle0)]
      = RunResult.crashed [] initState unboundRequestMsg :=
  ⟨rfl, rfl⟩

theorem respOf_invokeStep (st : ServerState) (o : Oracle) (idv tool params req : Json)
    (hid : objGet req "id" = idv) (hobj : ∃ fs, req = Json.obj fs) :
    respOf (invokeStep st o idv tool params req)
      = some (match dispatchTool st o idv tool params with
              | Except.error e => rpcError idv (-32000) e
              | Except.ok (_, resp) => resp) := by
  obtain ⟨fs, rfl⟩ := hobj
  unfold invokeStep
  rcases hd : dispatchTool st o idv tool params with e | ⟨st2, resp⟩ <;>
    simp [hd, exceptBlock, respOf, hid]

theorem stateOf_invokeStep (st : ServerState) (o : Oracle) (idv tool params req : Json)
    (hobj : ∃ fs, req = Json.obj fs) :
    stateOf (invokeStep st o idv tool params req)
      = some (match dispatchTool st o idv tool params with
              | Except.error _ => st
              | Except.ok (st2, _) => st2) := by
  obtain ⟨fs, rfl⟩ := hobj
  unfold invokeStep
  rcases hd : dispatchTool st o idv tool params with e | ⟨st2, resp⟩ <;>
    simp [hd, exceptBlock, stateOf]

/-- C8: an invoke request with `tool`/`parameters` at the top level, one with
them nested under a `params` wrapper, and one keyed by `type` instead of
`method` normalize to the same tool name and parameter mapping and are
processed to the same response payload and the same server state. -/
theorem invoke_envelope_equivalence (st : ServerState) (bound : Option Json) (o : Oracle)
    (idv tool params : Json) :
    extractInvoke (invokeTop idv tool params)
        = extractInvoke (invokeNested idv tool params)
    ∧ respOf (handle_line st bound (LineIn.good (invokeTop idv tool params)) o)
        = respOf (handle_line st bound (LineIn.good (invokeNested idv tool params)) o)
    ∧ stateOf (handle_line st bound (LineIn.good (invokeTop idv tool params)) o)
        = stateOf (handle_line st bound (LineIn.good (invokeNested idv tool params)) o)
    ∧ respOf (handle_line st bound (LineIn.good (invokeTop idv tool params)) o)
        = respOf (handle_line st bound (LineIn.good (invokeTyped idv tool params)) o)
    ∧ stateOf (handle_line st bound (LineIn.good (invokeTop idv tool params)) o)
        = stateOf (handle_line st bound (LineIn.good (invokeTyped idv tool params)) o) := by
  have hTop : handle_line st bound (LineIn.good (invokeTop idv tool params)) o
      = invokeStep st o idv tool params (invokeTop idv tool params) := rfl
  have hNested : handle_line st bound (LineIn.good (invokeNested idv tool params)) o
      = invokeStep st o idv tool params (invokeNested idv tool params) := rfl
  have hTyped : handle_line st bound (LineIn.good (invokeTyped idv tool params)) o
      = invokeStep st o idv tool params (invokeTyped idv tool params) := rfl
  refine ⟨rfl, ?_, ?_, ?_, ?_⟩
  · rw [hTop, hNested,
        respOf_invokeStep st o idv tool params (invokeTop idv tool params) rfl ⟨_, rfl⟩,
        respOf_invokeStep st o idv tool params (invokeNested idv tool params) rfl ⟨_, rfl⟩]
  · rw [hTop, hNested,
        stateOf_invokeStep st o idv tool params (invokeTop idv tool params) ⟨_, rfl⟩,
        stateOf_invokeStep st o idv tool params (invokeNested idv tool params) ⟨_, rfl⟩]
  · rw [hTop, hTyped,
        respOf_invokeStep st o idv tool params (invokeTop idv tool params) rfl ⟨_, rfl⟩,
        respOf_invokeStep st o idv tool params (invokeTyped idv tool params) rfl ⟨_, rfl⟩]
  · rw [hTop, hTyped,
        stateOf_invokeStep st o idv tool params (invokeTop idv tool params) ⟨_, rfl⟩,
        stateOf_invokeStep st o idv tool params (invokeTyped idv tool params) ⟨_, rfl⟩]

/-- C1 counterexample: a well-formed invoke request missing a required
parameter (`navigate` without `url`) is answered with code -32000 — the text
of the `KeyError` caught by the generic handler — not with -32602. -/
theorem missing_param_answered_with_32000 :
    handle_stdio [(LineIn.good (invokeTop (Json.num 7) (Json.str "navigate")
        (Json.obj [])), oracle0)]
      = RunResult.finished [rpcError (Json.num 7) (-32000) (keyErrStr "url")] initState []
    ∧ (-32000 : Int) ≠ -32602 :=
  ⟨rfl, by decide⟩

/-- C1 amended: the error codes of the dispatcher are: a malformed JSON line is
answered with code -32000 (under the id of the previously parsed request;
with no previously parsed dict the handler itself crashes, see C2), a missing
required parameter with -32000, an unknown method or unknown tool with
-32601, and a failure raised during tool execution with -32000.  -32700 and
-32602 are never produced. -/
theorem dispatcher_error_codes :
    (∀ (st : ServerState) (fs : List (String × Json)) (o : Oracle) (msg : String),
      handle_line st (some (Json.obj fs)) (LineIn.bad msg) o
        = StepRes.cont (rpcError ((lookupJ fs "id").getD Json.null) (-32000) msg) st
            (some (Json.obj fs)))
    ∧ (∀ (st : ServerState) (bound : Option Json) (o : Oracle) (m : String) (idv : Json),
        m ≠ "" → m ≠ "initialize" → m ≠ "invoke" →
        handle_line st bound
            (LineIn.good (Json.obj [("method", Json.str m), ("id", idv)])) o
          = StepRes.cont (rpcError idv (-32601) ("Unknown method: " ++ m)) st
              (some (Json.obj [("method", Json.str m), ("id", idv)])))
    ∧ (∀ (st : ServerState) (bound : Option Json) (o : Oracle) (t : String)
        (idv params : Json), t ∉ knownTools →
        handle_line st bound (LineIn.good (invokeTop idv (Json.str t) params)) o
          = StepRes.cont (rpcError idv (-32601) ("Unknown tool: " ++ t)) st
              (some (invokeTop idv (Json.str t) params)))
    ∧ (∀ (st : ServerState) (bound : Option Json) (o : Oracle) (idv : Json)
        (pfs : List (String × Json)), lookupJ pfs "url" = none →
        handle_line st bound
            (LineIn.good (invokeTop idv (Json.str "navigate") (Json.obj pfs))) o
          = StepRes.cont (rpcError idv (-32000) (keyErrStr "url")) st
              (some (invokeTop idv (Json.str "navigate") (Json.obj pfs))))
    ∧ (∀ (st : ServerState) (bound : Option Json) (idv url : Json) (sid : String)
        (d : Nat) (m : String) (o : Oracle), activeSession st = some sid →
        lookupD st.drivers sid = some d → o.navR = Except.error m →
        handle_line st bound
            (LineIn.good (invokeTop idv (Json.str "navigate")
              (Json.obj [("url", url)]))) o
          = StepRes.cont (rpcError idv (-32000) ("Error navigating: " ++ m)) st
              (some (invokeTop idv (Json.str "navigate") (Json.obj [("url", url)])))) := by
  refine ⟨?_, ?_, ?_, ?_, ?_⟩
  · intro st fs o msg
    rfl
  · intro st bound o m idv h0 h1 h2
    have b0 : (m != "") = true := bne_iff_ne.mpr h0
    have b1 : (m == "initialize") = false := beq_eq_false_iff_ne.mpr h1
    have b2 : (m == "invoke") = false := beq_eq_false_iff_ne.mpr h2
    simp [handle_line, objGet, lookupJ, pyOr, truthy, Json.eqStr, Json.pyStr, b0, b1, b2]
  · intro st bound o t idv params ht
    simp [knownTools] at ht
    obtain ⟨n1, n2, n3, n4, n5, n6, n7, n8, n9, n10, n11, n12⟩ := ht
    have hd : dispatchTool st o idv (Json.str t) params
        = Except.ok (st, rpcError idv (-32601) ("Unknown tool: " ++ t)) := by
      simp [dispatchTool, Json.eqStr, Json.pyStr,
            beq_eq_false_iff_ne.mpr n1, beq_eq_false_iff_ne.mpr n2,
            beq_eq_false_iff_ne.mpr n3, beq_eq_false_iff_ne.mpr n4,
            beq_eq_false_iff_ne.mpr n5, beq_eq_false_iff_ne.mpr n6,
            beq_eq_false_iff_ne.mpr n7, beq_eq_false_iff_ne.mpr n8,
            beq_eq_false_iff_ne.mpr n9, beq_eq_false_iff_ne.mpr n10,
            beq_eq_false_iff_ne.mpr n11, beq_eq_false_iff_ne.mpr n12]
    calc handle_line st bound (LineIn.good (invokeTop idv (Json.str t) params)) o
        = invokeStep st o idv (Json.str t) params (invokeTop idv (Json.str t) params) := rfl
      _ = StepRes.cont (rpcError idv (-32601) ("Unknown tool: " ++ t)) st
            (some (invokeTop idv (Json.str t) params)) := by
          simp [invokeStep, hd]
  · intro st bound o idv pfs hurl
    have h1 : dispatchTool st o idv (Json.str "navigate") (Json.obj pfs)
        = (do let url ← getItem (Json.obj pfs) "url"
              let out := navigate st url o.navR
              let resp ← wrapResult idv out.result
              Except.ok (out.state, resp)) := rfl
    have h2 : getItem (Json.obj pfs) "url" = Except.error (keyErrStr "url") := by
      simp [getItem, hurl]
    have hd : dispatchTool st o idv (Json.str "navigate") (Json.obj pfs)
        = Except.error (keyErrStr "url") := by
      rw [h1, h2]; rfl
    calc handle_line st bound
          (LineIn.good (invokeTop idv (Json.str "navigate") (Json.obj pfs))) o
        = invokeStep st o idv (Json.str "navigate") (Json.obj pfs)
            (invokeTop idv (Json.str "navigate") (Json.obj pfs)) := rfl
      _ = StepRes.cont (rpcError idv (-32000) (keyErrStr "url")) st
            (some (invokeTop idv (Json.str "navigate") (Json.obj pfs))) := by
          simp [invokeStep, hd, exceptBlock, objGet, invokeTop, lookupJ]
  · intro st bound idv url sid d m o hs hd hn
    have hnav : navigate st url o.navR
        = ⟨st, errText ("Error navigating: " ++ m), [EngineCall.navigateTo sid url]⟩ := by
      simp [navigate, hs, hd, hn]
    have h1 : dispatchTool st o idv (Json.str "navigate") (Json.obj [("url", url)])
        = (do let resp ← wrapResult idv (navigate st url o.navR).result
              Except.ok ((navigate st url o.navR).state, resp)) := rfl
    have hdt : dispatchTool st o idv (Json.str "navigate") (Json.obj [("url", url)])
        = Except.ok (st, rpcError idv (-32000) ("Error navigating: " ++ m)) := by
      rw [h1, hnav]; rfl
    calc handle_line st bound
          (LineIn.good (invokeTop idv (Json.str "navigate")
            (Json.obj [("url", url)]))) o
        = invokeStep st o idv (Json.str "navigate") (Json.obj [("url", url)])
            (invokeTop idv (Json.str "navigate") (Json.obj [("url", url)])) := rfl
      _ = StepRes.cont (rpcError idv (-32000) ("Error navigating: " ++ m)) st
            (some (invokeTop idv (Json.str "navigate") (Json.obj [("url", url)]))) := by
          simp [invokeStep, hdt]

theorem dispatcher_error_codes_witness :
    handle_line initState (some (Json.obj [("id", Json.num 3)]))
        (LineIn.bad "Expecting value: line 1 column 1 (char 0)") oracle0
      = StepRes.cont (rpcError (Json.num 3) (-32000)
          "Expecting value: line 1 column 1 (char 0)") initState
          (some (Json.obj [("id", Json.num 3)]))
    ∧ handle_line initState none
        (LineIn.good (invokeTop (Json.num 4) (Json.str "frobnicate") (Json.obj []))) oracle0
      = StepRes.cont (rpcError (Json.num 4) (-32601) "Unknown tool: frobnicate") initState
          (some (invokeTop (Json.num 4) (Json.str "frobnicate") (Json.obj []))) :=
  ⟨dispatcher_error_codes.1 initState [("id", Json.num 3)] oracle0
      "Expecting value: line 1 column 1 (char 0)",
   dispatcher_error_codes.2.2.1 initState none oracle0 "frobnicate" (Json.num 4)
      (Json.obj []) (by decide)⟩

end MCPSelenium
